import Mathlib

set_option maxRecDepth 10000

/-!
Verification of the QGIS Databricks connector plugin against its
natural-language specification.  Strings from the Python source are
modelled as `List Char`; Python's `str.strip`, `str.upper`,
`str.startswith`, the `in` substring test and `str.split(c, 1)` are
given explicit executable models, and each operation under scrutiny is
a direct transcription of the corresponding Python function.
-/

namespace DbxConn

/-- The whitespace characters removed by Python's `str.strip()`
(ASCII subset, sufficient for the WKT and identifier strings the
plugin manipulates). -/
def isPySpace (c : Char) : Bool :=
  c == ' ' || c == '\t' || c == '\n' || c == '\r' || c == '\x0b' || c == '\x0c'

/-- Python's `str.strip(chars)`: drop characters satisfying `p` from
both ends of the string. -/
def pyStripWith (p : Char → Bool) (l : List Char) : List Char :=
  (l.dropWhile p).rdropWhile p

/-- Python's `str.strip()` (strip whitespace from both ends). -/
def pyStrip (l : List Char) : List Char :=
  pyStripWith isPySpace l

/-- Python's `str.upper()` (ASCII case mapping). -/
def pyUpper (l : List Char) : List Char :=
  l.map Char.toUpper

/-- The backtick character. -/
def tick : Char := Char.ofNat 96

/-- Python's `identifier.strip(backtick)`. -/
def stripTicks (l : List Char) : List Char :=
  pyStripWith (fun c => c == tick) l

/-! ### SRID-prefix stripping
`QueryLayerCreationThread._strip_srid_from_wkt`
(src/plugin/databricks_dialog.py:2337-2351). -/

/-- The characters of the literal `SRID=`. -/
def sridPrefix : List Char := "SRID=".toList

/-- The part of `l` after the first occurrence of `c`, or `none` when `c`
does not occur: models `l.split(c, 1)` yielding more than one part. -/
def splitOnceAfter (c : Char) : List Char → Option (List Char)
  | [] => none
  | a :: rest => if a = c then some rest else splitOnceAfter c rest

/-- `_strip_srid_from_wkt`: strip whitespace; if the uppercased string
starts with `SRID=`, split on the first semicolon and return the
stripped remainder (or the stripped string itself when there is no
semicolon); otherwise return the stripped string. -/
def stripSridFromWkt (wktStr : List Char) : List Char :=
  if sridPrefix <+: pyUpper (pyStrip wktStr) then
    match splitOnceAfter ';' (pyStrip wktStr) with
    | some after => pyStrip after
    | none => pyStrip wktStr
  else pyStrip wktStr

/-! ### Identifier escaping
`LiveLayerFetchThread._escape_identifier`
(src/databricks_dbsql_connector/databricks_live_layer.py:52-57). -/

/-- `_escape_identifier`: empty identifiers pass through; otherwise
strip backticks from both ends and wrap the result in backticks. -/
def escapeIdentifier (identifier : List Char) : List Char :=
  if identifier = [] then identifier
  else tick :: (stripTicks identifier ++ [tick])

/-- Modelled from the spec: the section 6 escaping rule read literally,
"strip any existing backtick characters from an identifier" — removal
of every backtick, not only the outer ones. -/
def removeAllTicks (l : List Char) : List Char :=
  l.filter (fun c => c != tick)

/-! ### Geometry-family classification
Three distinct classifiers exist in the source:
`QueryLayerCreationThread.run` (src/plugin/databricks_dialog.py:1796-1815),
`LayerLoadingThread._get_qgs_geometry_type`
(src/databricks_dialog.py:746-764), and the browser loader
(src/plugin/databricks_browser.py:516-523). -/

/-- Geometry families distinguished by the query-layer classifier. -/
inductive GeomFamily where
  | point
  | lineString
  | polygon
  | multiPoint
  | multiLineString
  | multiPolygon
  deriving DecidableEq

/-- `clean_wkt = self._strip_srid_from_wkt(geom_wkt).strip().upper()`. -/
def cleanQueryWkt (geomWkt : List Char) : List Char :=
  pyUpper (pyStrip (stripSridFromWkt geomWkt))

/-- The `startswith` chain of `QueryLayerCreationThread.run` that adds a
family tag to `geometry_types_in_data`; an unrecognized tag adds
nothing (`none`). -/
def classifyQueryWkt (geomWkt : List Char) : Option GeomFamily :=
  if "POINT".toList <+: cleanQueryWkt geomWkt then some .point
  else if "LINESTRING".toList <+: cleanQueryWkt geomWkt then some .lineString
  else if "POLYGON".toList <+: cleanQueryWkt geomWkt then some .polygon
  else if "MULTIPOINT".toList <+: cleanQueryWkt geomWkt then some .multiPoint
  else if "MULTILINESTRING".toList <+: cleanQueryWkt geomWkt then some .multiLineString
  else if "MULTIPOLYGON".toList <+: cleanQueryWkt geomWkt then some .multiPolygon
  else none

/-- `LayerLoadingThread._get_qgs_geometry_type`: memory-layer geometry
string from `table_info['geometry_type']` and the mixed flag. -/
def getQgsGeometryType (geometryType : List Char) (mixedGeometries : Bool) : List Char :=
  if mixedGeometries then "Point".toList
  else if "GEOMETRY".toList <+: pyUpper geometryType ∨
      pyUpper geometryType = "MIXED".toList then "Point".toList
  else if "POINT".toList <:+: pyUpper geometryType then "Point".toList
  else if "LINESTRING".toList <:+: pyUpper geometryType then "LineString".toList
  else if "POLYGON".toList <:+: pyUpper geometryType then "Polygon".toList
  else "Point".toList

/-- The browser loader's grouping of a parsed geometry's uppercased
display-type name into a base family, with an `Unknown` fallback. -/
def classifyBrowserTypeName (geomTypeName : List Char) : List Char :=
  if "POINT".toList <:+: pyUpper geomTypeName then "Point".toList
  else if "LINESTRING".toList <:+: pyUpper geomTypeName then "LineString".toList
  else if "POLYGON".toList <:+: pyUpper geomTypeName then "Polygon".toList
  else "Unknown".toList

/-! ### Warehouse-type to host-attribute-type mapping
`_map_databricks_type_to_qgs`, identical in
src/databricks_dialog.py:663-677 and
src/plugin/databricks_provider.py:311-325. -/

/-- The `QVariant` attribute types used as dictionary values. -/
inductive QVariantType where
  | qstring
  | qint
  | qlonglong
  | qdouble
  | qbool
  | qdate
  | qdatetime
  deriving DecidableEq

/-- The literal `type_mapping` dictionary of
`_map_databricks_type_to_qgs`. -/
def qvariantTypeMapping : List (List Char × QVariantType) :=
  [("STRING".toList, .qstring), ("INT".toList, .qint),
   ("BIGINT".toList, .qlonglong), ("FLOAT".toList, .qdouble),
   ("DOUBLE".toList, .qdouble), ("DECIMAL".toList, .qdouble),
   ("BOOLEAN".toList, .qbool), ("DATE".toList, .qdate),
   ("TIMESTAMP".toList, .qdatetime), ("TIMESTAMP_NTZ".toList, .qdatetime)]

/-- Python `dict.get(key, default)` over an association list with
distinct keys. -/
def dictGet : List (List Char × QVariantType) → List Char → QVariantType → QVariantType
  | [], _, d => d
  | (k, v) :: rest, key, d => if k = key then v else dictGet rest key d

/-- `_map_databricks_type_to_qgs`: exact lookup of the uppercased type
name, defaulting to `QVariant.String`. -/
def mapDatabricksTypeToQgs (databricksType : List Char) : QVariantType :=
  dictGet qvariantTypeMapping (pyUpper databricksType) .qstring

/-- The host attribute types named by the section 4.3 table, plus the
32-bit integer the table omits. -/
inductive HostType where
  | text
  | int32
  | int64
  | doubleFloat
  | date
  | datetime
  | boolean
  deriving DecidableEq

/-- The width/kind of each `QVariant` attribute type
(`QVariant.Int` is a 32-bit integer, `QVariant.LongLong` 64-bit). -/
def hostTypeOfQVariant : QVariantType → HostType
  | .qstring => .text
  | .qint => .int32
  | .qlonglong => .int64
  | .qdouble => .doubleFloat
  | .qbool => .boolean
  | .qdate => .date
  | .qdatetime => .datetime

/-- Modelled from the spec: the section 4.3 mapping table read as
written — warehouse type name matched case-insensitively, possibly as
a substring, row by row, anything else text. -/
def specSection43HostType (typeName : List Char) : HostType :=
  if "STRING".toList <:+: pyUpper typeName ∨
      "VARCHAR".toList <:+: pyUpper typeName then .text
  else if "INT".toList <:+: pyUpper typeName then .int64
  else if "DOUBLE".toList <:+: pyUpper typeName ∨
      "FLOAT".toList <:+: pyUpper typeName ∨
      "DECIMAL".toList <:+: pyUpper typeName then .doubleFloat
  else if "DATE".toList <:+: pyUpper typeName then .date
  else if "TIMESTAMP".toList <:+: pyUpper typeName then .datetime
  else if "BOOLEAN".toList <:+: pyUpper typeName then .boolean
  else .text

/-! ### Declared geometry-type detection in the data provider
`DatabricksProvider._detect_geometry_type`
(src/plugin/databricks_provider.py:249-284). -/

/-- The host's WKB geometry-type constants used by the provider. -/
inductive QgsWkbType where
  | point
  | lineString
  | polygon
  | multiPoint
  | multiLineString
  | multiPolygon
  | unknown
  deriving DecidableEq

/-- The branch chain of `_detect_geometry_type` applied to the
uppercased `ST_GEOMETRYTYPE` probe result. -/
def detectGeometryTypeTag (geomTypeRaw : List Char) : QgsWkbType :=
  if "POINT".toList <:+: pyUpper geomTypeRaw then .point
  else if "LINESTRING".toList <:+: pyUpper geomTypeRaw then .lineString
  else if "POLYGON".toList <:+: pyUpper geomTypeRaw then .polygon
  else if "MULTIPOINT".toList <:+: pyUpper geomTypeRaw then .multiPoint
  else if "MULTILINESTRING".toList <:+: pyUpper geomTypeRaw then .multiLineString
  else if "MULTIPOLYGON".toList <:+: pyUpper geomTypeRaw then .multiPolygon
  else .unknown

/-! ### Live-layer extent-unchanged guard
`DatabricksLiveLayerManager._is_extent_similar`
(src/databricks_dbsql_connector/databricks_live_layer.py:288-306),
modelled with exact rational arithmetic in place of the host's
floating point. -/

/-- A map extent (`QgsRectangle`). -/
structure QgsRect where
  xMin : ℚ
  yMin : ℚ
  xMax : ℚ
  yMax : ℚ

def QgsRect.width (r : QgsRect) : ℚ := r.xMax - r.xMin

def QgsRect.height (r : QgsRect) : ℚ := r.yMax - r.yMin

def QgsRect.centerX (r : QgsRect) : ℚ := (r.xMin + r.xMax) / 2

def QgsRect.centerY (r : QgsRect) : ℚ := (r.yMin + r.yMax) / 2

/-- `_is_extent_similar`: `self._last_extent` is the first argument;
`tolerance = 0.05`, relative size changes measured against the new
extent's dimensions (guarded by `max(…, 0.0001)`), center movement
against 5% of the new extent's width/height. -/
def isExtentSimilar (lastExtent : Option QgsRect) (extent : QgsRect) : Bool :=
  match lastExtent with
  | none => false
  | some last =>
    let tolerance : ℚ := 5/100
    let widthDiff := |extent.width - last.width| / max extent.width (1/10000)
    let heightDiff := |extent.height - last.height| / max extent.height (1/10000)
    let centerDiffX := |extent.centerX - last.centerX|
    let centerDiffY := |extent.centerY - last.centerY|
    let centerMoved := decide (centerDiffX > extent.width * tolerance) ||
                       decide (centerDiffY > extent.height * tolerance)
    let sizeChanged := decide (widthDiff > tolerance) ||
                       decide (heightDiff > tolerance)
    !(centerMoved || sizeChanged)

/-! ### Generated data-fetch queries
`LayerLoadingThread.run` (src/databricks_dialog.py:227-236) and
`LiveLayerFetchThread._build_viewport_query`
(src/databricks_dbsql_connector/databricks_live_layer.py:66-106). -/

/-- The decimal text an f-string interpolates for a Python `int`. -/
def pyIntRepr (i : Int) : List Char :=
  if i < 0 then '-' :: Nat.toDigits 10 (-i).toNat else Nat.toDigits 10 i.toNat

/-- The single-quote character. -/
def sq : Char := Char.ofNat 39

/-- The data query of `LayerLoadingThread.run` before the feature-cap
suffix: the retained attribute columns plus
`ST_ASWKT(geometry_column) as geom_wkt`. -/
def layerLoadQueryBase (attributeFields : List (List Char))
    (geometryColumn tableRef : List Char) : List Char :=
  "SELECT ".toList ++
    List.intercalate ", ".toList
      (attributeFields ++
        ["ST_ASWKT(".toList ++ geometryColumn ++ ") as geom_wkt".toList]) ++
    " FROM ".toList ++ tableRef

/-- The data query of `LayerLoadingThread.run`:
`if self.max_features > 0: query += f" LIMIT {self.max_features}"`. -/
def layerLoadQuery (attributeFields : List (List Char))
    (geometryColumn tableRef : List Char) (maxFeatures : Int) : List Char :=
  if maxFeatures > 0 then
    layerLoadQueryBase attributeFields geometryColumn tableRef ++
      " LIMIT ".toList ++ pyIntRepr maxFeatures
  else layerLoadQueryBase attributeFields geometryColumn tableRef

/-- `LiveLayerFetchThread._get_escaped_table_ref`: split the full name
on dots, escape each part, rejoin. -/
def getEscapedTableRef (fullName : List Char) : List Char :=
  List.intercalate ".".toList
    ((List.splitOn '.' fullName).map escapeIdentifier)

/-- The viewport polygon WKT of `_build_viewport_query`; the four
coordinates are the host's float repr, kept abstract as strings. -/
def viewportWkt (xmin ymin xmax ymax : List Char) : List Char :=
  "POLYGON((".toList ++ xmin ++ " ".toList ++ ymin ++ ", ".toList ++
    xmax ++ " ".toList ++ ymin ++ ", ".toList ++
    xmax ++ " ".toList ++ ymax ++ ", ".toList ++
    xmin ++ " ".toList ++ ymax ++ ", ".toList ++
    xmin ++ " ".toList ++ ymin ++ "))".toList

/-- `_build_viewport_query` before the feature-cap suffix: the escaped
attribute columns (or `1` when there are none) plus the hex-WKB
geometry, the `ST_INTERSECTS` filter against the viewport polygon at
the layer's SRID, and the optional custom WHERE clause. -/
def buildViewportQueryBase (fields : List (List Char))
    (fullName geometryColumn : List Char)
    (xmin ymin xmax ymax : List Char) (srid : Int)
    (customWhere : List Char) : List Char :=
  let attrColumns := fields.map escapeIdentifier
  let attrSql :=
    if attrColumns = [] then "1".toList
    else List.intercalate ", ".toList attrColumns
  let query :=
    "\n            SELECT ".toList ++ attrSql ++ ", ST_ASWKB(".toList ++
      escapeIdentifier geometryColumn ++
      ") as geometry_wkb\n            FROM ".toList ++
      getEscapedTableRef fullName ++
      "\n            WHERE ST_INTERSECTS(\n                ".toList ++
      escapeIdentifier geometryColumn ++
      ",\n                ST_GEOMFROMTEXT(".toList ++ [sq] ++
      viewportWkt xmin ymin xmax ymax ++ [sq] ++ ", ".toList ++
      pyIntRepr srid ++ ")\n            )\n        ".toList
  if customWhere = [] then query
  else query ++ " AND (".toList ++ customWhere ++ ")".toList

/-- `_build_viewport_query`:
`if self.max_features > 0: query += f" LIMIT {self.max_features}"`. -/
def buildViewportQuery (fields : List (List Char))
    (fullName geometryColumn : List Char)
    (xmin ymin xmax ymax : List Char) (srid : Int)
    (customWhere : List Char) (maxFeatures : Int) : List Char :=
  if maxFeatures > 0 then
    buildViewportQueryBase fields fullName geometryColumn
        xmin ymin xmax ymax srid customWhere ++
      " LIMIT ".toList ++ pyIntRepr maxFeatures
  else
    buildViewportQueryBase fields fullName geometryColumn
      xmin ymin xmax ymax srid customWhere

/-! ### Pull-based feature retrieval in the data provider
`DatabricksProvider.get_features_impl`
(src/plugin/databricks_provider.py:406-436).  A fetched cell is `none`
for SQL NULL and `some s` for a (textual) value; geometry parsing —
`wkt.loads` followed by `_shapely_to_qgs_geometry` — is host/library
code, kept abstract as an `Option`-valued oracle. -/

/-- One yielded feature: its attribute cells and its (possibly null)
geometry. -/
structure ProviderFeature (G : Type) where
  attrs : List (Option (List Char))
  geom : Option G
  deriving DecidableEq

/-- The final value of `geom_wkt` after the `enumerate` loop: the last
cell whose index reaches past the attribute fields, `None` initially. -/
def rowGeomCell (numFields : Nat) (row : List (Option (List Char))) :
    Option (List Char) :=
  match (row.drop numFields).getLast? with
  | some v => v
  | none => none

/-- The geometry set on the feature: parsing is attempted only when
`geom_wkt` is truthy, and a parse/convert failure is caught, leaving
the geometry null. -/
def parseRowGeom {G : Type} (parseWkt : List Char → Option G)
    (numFields : Nat) (row : List (Option (List Char))) : Option G :=
  match rowGeomCell numFields row with
  | some s => if s = [] then none else parseWkt s
  | none => none

/-- The row-to-feature conversion loop of `get_features_impl`: every
row is yielded (the `yield` sits outside the geometry `try`). -/
def getFeaturesImpl {G : Type} (parseWkt : List Char → Option G)
    (numFields : Nat) (rows : List (List (Option (List Char)))) :
    List (ProviderFeature G) :=
  rows.map (fun row =>
    ⟨row.take numFields, parseRowGeom parseWkt numFields row⟩)

/-! ### The `_start_installation` success path
`DatabricksConnector._start_installation`
(src/databricks_dbsql_connector/databricks_connector.py:359-426),
modelled at the level of Python name resolution: each statement reads
some free names and binds some local names; reading a name bound
neither locally nor at module level raises `NameError`. -/

/-- One transcribed Python statement: a tag for readability, the free
(non-attribute) names it reads, and the local names it binds. -/
structure PyStmt where
  tag : String
  reads : List String
  binds : List String
  deriving DecidableEq

/-- A name resolves if it is a local or a module-level global. -/
def pyResolves (env globalsL : List String) (n : String) : Bool :=
  env.contains n || globalsL.contains n

/-- Index of the first statement that reads an unresolvable name
(raising `NameError`), executing assignments in order. -/
def firstNameError (globalsL : List String) :
    List String → List PyStmt → Option Nat
  | _, [] => none
  | env, s :: rest =>
    if s.reads.all (pyResolves env globalsL) then
      match firstNameError globalsL (env ++ s.binds) rest with
      | some k => some (k + 1)
      | none => none
    else some 0

/-- The module-level names of databricks_connector.py referenced by
the transcribed statements (Qt/QGIS imports). -/
def connectorModuleGlobals : List String :=
  ["QProgressDialog", "QProcess", "QgsMessageLog", "Qgis", "Qt",
   "QApplication"]

/-- The statements `_start_installation` executes on the path where
`_find_qgis_pip` returned an executable, transcribed in source
order. -/
def startInstallationFoundPath : List PyStmt :=
  [⟨"executable, args, tried_paths = self._find_qgis_pip()",
    ["self"], ["executable", "args", "tried_paths"]⟩,
   ⟨"log searched paths", ["QgsMessageLog", "tried_paths", "Qgis"], []⟩,
   ⟨"if executable: log found executable",
    ["executable", "QgsMessageLog", "Qgis"], []⟩,
   ⟨"if not executable: (guard false on this path)", ["executable"], []⟩,
   ⟨"self.progress_dialog = QProgressDialog(...)",
    ["QProgressDialog", "executable", "self"], []⟩,
   ⟨"self.progress_dialog.setWindowTitle(...)", ["self"], []⟩,
   ⟨"self.progress_dialog.setWindowModality(Qt.WindowModal)",
    ["self", "Qt"], []⟩,
   ⟨"self.progress_dialog.setMinimumDuration(0)", ["self"], []⟩,
   ⟨"self.progress_dialog.setMinimumWidth(450)", ["self"], []⟩,
   ⟨"self.progress_dialog.show()", ["self"], []⟩,
   ⟨"QApplication.processEvents()", ["QApplication"], []⟩,
   ⟨"self.install_output = empty string", ["self"], []⟩,
   ⟨"self.install_process = QProcess(self.iface.mainWindow())",
    ["QProcess", "self"], []⟩,
   ⟨"self.install_process.setProcessChannelMode(QProcess.MergedChannels)",
    ["self", "QProcess"], []⟩,
   ⟨"connect readyReadStandardOutput", ["self"], []⟩,
   ⟨"connect finished", ["self"], []⟩,
   ⟨"connect errorOccurred", ["self"], []⟩,
   ⟨"self.install_process.start(executable, args)",
    ["self", "executable", "args"], []⟩,
   ⟨"log Starting pip install with python_exe",
    ["QgsMessageLog", "python_exe", "Qgis"], []⟩]

/-! ### Partial-load reporting
`LayerLoadingThread.run` (src/databricks_dialog.py:380-653) and the
single-family layer path of `QueryLayerCreationThread.run`
(src/plugin/databricks_dialog.py:1880-1981).  The host calls
(`QgsGeometry.fromWkt`, GEOS validity, WKB type of the parsed
geometry) are abstracted into each row's outcome; the memory
provider's feature adds are modelled as succeeding, which is the
in-memory provider's behaviour for the features both loops build. -/

/-- The geometry-filter configuration a `LayerLoadingThread` reads
from `table_info`. -/
structure TableLoadInfo where
  targetGeometryType : Option (List Char)
  mixedGeometries : Bool
  deriving DecidableEq

/-- One fetched row of `LayerLoadingThread.run`, abstracted to its
geometry outcome: `none` when the geometry cell is empty/whitespace,
unparsable, null or GEOS-invalid (the loop `continue`s without
appending a feature), `some wkb` when a valid geometry with WKB type
id `wkb` was parsed. -/
def rowSurvives (info : TableLoadInfo) (layerWkb : Nat)
    (row : Option Nat) : Bool :=
  match row with
  | none => false
  | some wkb =>
    match info.targetGeometryType with
    | some t => wkb == (if t = "ST_LINESTRING".toList then 2 else 3)
    | none => if info.mixedGeometries then wkb == 1 else wkb == layerWkb

/-- The completion signal of `LayerLoadingThread.run`. -/
structure LoadResult where
  success : Bool
  message : List Char
  layerFeatures : Option (List (Option Nat))
  deriving DecidableEq

/-- The feature-building loop plus completion reporting of
`LayerLoadingThread.run`: rows whose geometry fails or is incompatible
are dropped; zero surviving features emits failure with no layer;
otherwise success with the loaded count. -/
def layerLoadingRun (info : TableLoadInfo) (layerWkb : Nat)
    (rows : List (Option Nat)) : LoadResult :=
  let featuresToAdd := rows.filter (rowSurvives info layerWkb)
  if featuresToAdd.length = 0 then
    ⟨false, "No features were successfully added to the layer".toList, none⟩
  else if info.mixedGeometries then
    ⟨true,
     "Loaded ".toList ++ Nat.toDigits 10 featuresToAdd.length ++
       " Point features. Creating additional layers for LineStrings and Polygons...".toList,
     some featuresToAdd⟩
  else
    ⟨true,
     "Loaded ".toList ++ Nat.toDigits 10 featuresToAdd.length ++
       " features with geometries".toList,
     some featuresToAdd⟩

/-- The completion signal of the single-family path of
`QueryLayerCreationThread.run`. -/
structure QueryLayerResult where
  success : Bool
  message : List Char
  featureCount : Option Nat
  deriving DecidableEq

/-- The single-family feature loop of `QueryLayerCreationThread.run`,
each row abstracted to whether its geometry cell parsed to a valid
geometry.  Every row is appended as a feature — the `append` sits
outside the geometry `try` — so the committed feature count equals the
row count and the skipped-count message branch is taken only when the
count falls short of the total. -/
def queryLayerCreationRun (rows : List Bool) : QueryLayerResult :=
  let featuresToAdd := rows
  let totalFeatures := rows.length
  let successfulFeatures := featuresToAdd.length
  if successfulFeatures < totalFeatures then
    ⟨true,
     "Created layer with ".toList ++ Nat.toDigits 10 successfulFeatures ++
       " features out of ".toList ++ Nat.toDigits 10 totalFeatures ++
       " rows. ".toList ++
       Nat.toDigits 10 (totalFeatures - successfulFeatures) ++
       " features were skipped due to geometry parsing issues. Check the log for details.".toList,
     some successfulFeatures⟩
  else
    ⟨true,
     "Created layer with ".toList ++ Nat.toDigits 10 successfulFeatures ++
       " features".toList,
     some successfulFeatures⟩

theorem pyStripWith_ne_nil_head_not (p : Char → Bool) (l : List Char)
    (h : pyStripWith p l ≠ []) :
    ∃ c t, pyStripWith p l = c :: t ∧ p c = false := by
  rcases hc : pyStripWith p l with _ | ⟨c, t⟩
  · exact absurd hc h
  · refine ⟨c, t, rfl, ?_⟩
    have hpre : pyStripWith p l <+: l.dropWhile p := by
      unfold pyStripWith
      exact List.rdropWhile_prefix _ _
    rw [hc] at hpre
    rcases hpre with ⟨r, hr⟩
    have hidem := List.dropWhile_idempotent p l
    rw [← hr] at hidem
    rw [List.cons_append, List.dropWhile_cons] at hidem
    by_cases hpc : p c = true
    · rw [if_pos hpc] at hidem
      have hlen : (List.dropWhile p (t ++ r)).length ≤ (t ++ r).length :=
        (List.dropWhile_suffix p).length_le
      rw [hidem] at hlen
      simp at hlen
    · simpa using hpc

theorem dropWhile_pyStripWith (p : Char → Bool) (l : List Char) :
    (pyStripWith p l).dropWhile p = pyStripWith p l := by
  by_cases h : pyStripWith p l = []
  · rw [h]
    rfl
  · obtain ⟨c, t, hct, hpc⟩ := pyStripWith_ne_nil_head_not p l h
    rw [hct, List.dropWhile_cons, if_neg (by simp [hpc])]

theorem rdropWhile_pyStripWith (p : Char → Bool) (l : List Char) :
    (pyStripWith p l).rdropWhile p = pyStripWith p l := by
  unfold pyStripWith
  exact List.rdropWhile_idempotent p _

theorem pyStripWith_idem (p : Char → Bool) (l : List Char) :
    pyStripWith p (pyStripWith p l) = pyStripWith p l := by
  show ((pyStripWith p l).dropWhile p).rdropWhile p = pyStripWith p l
  rw [dropWhile_pyStripWith]
  exact rdropWhile_pyStripWith p l

theorem pyStripWith_wrap (p : Char → Bool) (a b : Char)
    (ha : p a = true) (hb : p b = true) (l : List Char) :
    pyStripWith p (a :: (pyStripWith p l ++ [b])) = pyStripWith p l := by
  show ((a :: (pyStripWith p l ++ [b])).dropWhile p).rdropWhile p = pyStripWith p l
  rw [List.dropWhile_cons, if_pos ha]
  by_cases h : pyStripWith p l = []
  · rw [h]
    show (List.dropWhile p [b]).rdropWhile p = []
    rw [List.dropWhile_cons, if_pos hb]
    rfl
  · obtain ⟨c, t, hct, hpc⟩ := pyStripWith_ne_nil_head_not p l h
    rw [hct, List.cons_append, List.dropWhile_cons, if_neg (by simp [hpc]),
      ← List.cons_append, ← hct, List.rdropWhile_concat_pos p _ b hb]
    exact rdropWhile_pyStripWith p l

theorem pyStrip_stripSridFromWkt (s : List Char) :
    pyStrip (stripSridFromWkt s) = stripSridFromWkt s := by
  unfold stripSridFromWkt
  by_cases h : sridPrefix <+: pyUpper (pyStrip s)
  · rw [if_pos h]
    cases hsp : splitOnceAfter ';' (pyStrip s) with
    | none => exact pyStripWith_idem _ s
    | some after => exact pyStripWith_idem _ after
  · rw [if_neg h]
    exact pyStripWith_idem _ s

theorem stripSrid_unmarked (t : List Char)
    (h : ¬ sridPrefix <+: pyUpper (pyStrip t)) :
    stripSridFromWkt t = pyStrip t := by
  rw [stripSridFromWkt, if_neg h]

theorem stripTicks_wrap (l : List Char) :
    stripTicks (tick :: (stripTicks l ++ [tick])) = stripTicks l :=
  pyStripWith_wrap (fun c => c == tick) tick tick (by decide) (by decide) l

theorem escapeIdentifier_idem (x : List Char) :
    escapeIdentifier (escapeIdentifier x) = escapeIdentifier x := by
  by_cases hx : x = []
  · rw [hx]
    rfl
  · have h1 : escapeIdentifier x = tick :: (stripTicks x ++ [tick]) := by
      rw [escapeIdentifier, if_neg hx]
    rw [h1, escapeIdentifier, if_neg (by simp), stripTicks_wrap]

/-- C1 counterexample: the query-layer classification (the claim's
cited code) classifies a MULTIPOLYGON tag as MultiPolygon, not as the
Polygon family, and records nothing (rather than "Unknown") for an
unrecognized tag. -/
theorem c1_counterexample :
    classifyQueryWkt "MULTIPOLYGON(((0 0,1 0,1 1,0 0)))".toList =
      some GeomFamily.multiPolygon ∧
    some GeomFamily.multiPolygon ≠ some GeomFamily.polygon ∧
    classifyQueryWkt "CIRCULARSTRING(0 0,1 1,2 0)".toList = none := by
  decide

theorem not_prefix_of_incomparable {a b l : List Char}
    (hab : ¬ a <+: b) (hba : ¬ b <+: a) (hb : b <+: l) : ¬ a <+: l :=
  fun ha => (List.prefix_or_prefix_of_prefix ha hb).elim hab hba

/-- C1 (amended): classification is per-classifier, not uniform.
The query-layer classifier maps a tag beginning POINT to Point,
beginning LINESTRING to LineString, beginning POLYGON to Polygon,
beginning MULTIPOLYGON to MultiPolygon (not Polygon), and records no
family at all for an unrecognized tag.  The table-loader classifier
maps every tag to Point when the mixed-geometries flag is set (even
LINESTRING or POLYGON tags); with the flag unset it maps generic
GEOMETRY/MIXED tags to Point, then a tag containing POINT to Point,
else containing LINESTRING to LineString, else containing POLYGON
(including MULTIPOLYGON) to Polygon, and defaults unrecognized tags to
Point.  The browser classifier maps a tag containing POINT to Point,
else containing LINESTRING to LineString, else containing POLYGON
(including MULTIPOLYGON) to Polygon, and an unrecognized tag to
"Unknown". -/
theorem c1_classification :
    (∀ w : List Char, "POINT".toList <+: cleanQueryWkt w →
      classifyQueryWkt w = some GeomFamily.point) ∧
    (∀ w : List Char, "LINESTRING".toList <+: cleanQueryWkt w →
      classifyQueryWkt w = some GeomFamily.lineString) ∧
    (∀ w : List Char, "POLYGON".toList <+: cleanQueryWkt w →
      classifyQueryWkt w = some GeomFamily.polygon) ∧
    (∀ w : List Char, "MULTIPOLYGON".toList <+: cleanQueryWkt w →
      classifyQueryWkt w = some GeomFamily.multiPolygon) ∧
    (∀ w : List Char,
      ¬ "POINT".toList <+: cleanQueryWkt w →
      ¬ "LINESTRING".toList <+: cleanQueryWkt w →
      ¬ "POLYGON".toList <+: cleanQueryWkt w →
      ¬ "MULTIPOINT".toList <+: cleanQueryWkt w →
      ¬ "MULTILINESTRING".toList <+: cleanQueryWkt w →
      ¬ "MULTIPOLYGON".toList <+: cleanQueryWkt w →
      classifyQueryWkt w = none) ∧
    classifyQueryWkt "POINT(0 0)".toList = some GeomFamily.point ∧
    classifyQueryWkt "LINESTRING(0 0,1 1)".toList = some GeomFamily.lineString ∧
    classifyQueryWkt "POLYGON((0 0,1 0,1 1,0 0))".toList = some GeomFamily.polygon ∧
    classifyQueryWkt "MULTIPOLYGON(((0 0,1 0,1 1,0 0)))".toList =
      some GeomFamily.multiPolygon ∧
    (∀ t : List Char, getQgsGeometryType t true = "Point".toList) ∧
    (∀ t : List Char,
      ("GEOMETRY".toList <+: pyUpper t ∨ pyUpper t = "MIXED".toList) →
      getQgsGeometryType t false = "Point".toList) ∧
    (∀ t : List Char,
      ¬ ("GEOMETRY".toList <+: pyUpper t ∨ pyUpper t = "MIXED".toList) →
      "POINT".toList <:+: pyUpper t →
      getQgsGeometryType t false = "Point".toList) ∧
    (∀ t : List Char,
      ¬ ("GEOMETRY".toList <+: pyUpper t ∨ pyUpper t = "MIXED".toList) →
      ¬ "POINT".toList <:+: pyUpper t →
      "LINESTRING".toList <:+: pyUpper t →
      getQgsGeometryType t false = "LineString".toList) ∧
    (∀ t : List Char,
      ¬ ("GEOMETRY".toList <+: pyUpper t ∨ pyUpper t = "MIXED".toList) →
      ¬ "POINT".toList <:+: pyUpper t →
      ¬ "LINESTRING".toList <:+: pyUpper t →
      "POLYGON".toList <:+: pyUpper t →
      getQgsGeometryType t false = "Polygon".toList) ∧
    (∀ t : List Char, ∀ b : Bool,
      ¬ "POINT".toList <:+: pyUpper t →
      ¬ "LINESTRING".toList <:+: pyUpper t →
      ¬ "POLYGON".toList <:+: pyUpper t →
      getQgsGeometryType t b = "Point".toList) ∧
    getQgsGeometryType "POINT".toList false = "Point".toList ∧
    getQgsGeometryType "LINESTRING".toList false = "LineString".toList ∧
    getQgsGeometryType "POLYGON".toList false = "Polygon".toList ∧
    getQgsGeometryType "MULTIPOLYGON".toList false = "Polygon".toList ∧
    getQgsGeometryType "LINESTRING".toList true = "Point".toList ∧
    (∀ t : List Char, "POINT".toList <:+: pyUpper t →
      classifyBrowserTypeName t = "Point".toList) ∧
    (∀ t : List Char,
      ¬ "POINT".toList <:+: pyUpper t →
      "LINESTRING".toList <:+: pyUpper t →
      classifyBrowserTypeName t = "LineString".toList) ∧
    (∀ t : List Char,
      ¬ "POINT".toList <:+: pyUpper t →
      ¬ "LINESTRING".toList <:+: pyUpper t →
      "POLYGON".toList <:+: pyUpper t →
      classifyBrowserTypeName t = "Polygon".toList) ∧
    (∀ t : List Char,
      ¬ "POINT".toList <:+: pyUpper t →
      ¬ "LINESTRING".toList <:+: pyUpper t →
      ¬ "POLYGON".toList <:+: pyUpper t →
      classifyBrowserTypeName t = "Unknown".toList) ∧
    classifyBrowserTypeName "POINT".toList = "Point".toList ∧
    classifyBrowserTypeName "LINESTRING".toList = "LineString".toList ∧
    classifyBrowserTypeName "POLYGON".toList = "Polygon".toList ∧
    classifyBrowserTypeName "MULTIPOLYGON".toList = "Polygon".toList := by
  refine ⟨?_, ?_, ?_, ?_, ?_, by decide, by decide, by decide, by decide,
    ?_, ?_, ?_, ?_, ?_, ?_, by decide, by decide, by decide, by decide,
    by decide, ?_, ?_, ?_, ?_, by decide, by decide, by decide, by decide⟩
  · intro w h
    rw [classifyQueryWkt, if_pos h]
  · intro w h
    rw [classifyQueryWkt,
      if_neg (not_prefix_of_incomparable (by decide) (by decide) h), if_pos h]
  · intro w h
    rw [classifyQueryWkt,
      if_neg (not_prefix_of_incomparable (by decide) (by decide) h),
      if_neg (not_prefix_of_incomparable (by decide) (by decide) h), if_pos h]
  · intro w h
    rw [classifyQueryWkt,
      if_neg (not_prefix_of_incomparable (by decide) (by decide) h),
      if_neg (not_prefix_of_incomparable (by decide) (by decide) h),
      if_neg (not_prefix_of_incomparable (by decide) (by decide) h),
      if_neg (not_prefix_of_incomparable (by decide) (by decide) h),
      if_neg (not_prefix_of_incomparable (by decide) (by decide) h), if_pos h]
  · intro w h1 h2 h3 h4 h5 h6
    rw [classifyQueryWkt, if_neg h1, if_neg h2, if_neg h3, if_neg h4,
      if_neg h5, if_neg h6]
  · intro t
    rw [getQgsGeometryType, if_pos rfl]
  · intro t hg
    rw [getQgsGeometryType, if_neg (by decide), if_pos hg]
  · intro t hg h
    rw [getQgsGeometryType, if_neg (by decide), if_neg hg, if_pos h]
  · intro t hg h1 h2
    rw [getQgsGeometryType, if_neg (by decide), if_neg hg, if_neg h1, if_pos h2]
  · intro t hg h1 h2 h3
    rw [getQgsGeometryType, if_neg (by decide), if_neg hg, if_neg h1,
      if_neg h2, if_pos h3]
  · intro t b h1 h2 h3
    cases b with
    | true => rw [getQgsGeometryType, if_pos rfl]
    | false =>
      rw [getQgsGeometryType]
      by_cases hg : "GEOMETRY".toList <+: pyUpper t ∨ pyUpper t = "MIXED".toList
      · rw [if_neg (by decide), if_pos hg]
      · rw [if_neg (by decide), if_neg hg, if_neg h1, if_neg h2, if_neg h3]
  · intro t h
    rw [classifyBrowserTypeName, if_pos h]
  · intro t h1 h2
    rw [classifyBrowserTypeName, if_neg h1, if_pos h2]
  · intro t h1 h2 h3
    rw [classifyBrowserTypeName, if_neg h1, if_neg h2, if_pos h3]
  · intro t h1 h2 h3
    rw [classifyBrowserTypeName, if_neg h1, if_neg h2, if_neg h3]

/-- C1 witness: the universal clauses of each classifier applied at
concrete tags — a LINESTRING-prefixed WKT in the query classifier, an
ST_LINESTRING tag and an unrecognized CURVE tag in the table-loader
classifier, a CURVEPOLYGON and an unrecognized CIRCLE tag in the
browser classifier, and an unrecognized GEOMETRYCOLLECTION WKT in the
query classifier. -/
theorem c1_classification_witness :
    classifyQueryWkt "LINESTRING(5 5,6 6)".toList = some GeomFamily.lineString ∧
    getQgsGeometryType "ST_LINESTRING".toList false = "LineString".toList ∧
    classifyBrowserTypeName "CURVEPOLYGON".toList = "Polygon".toList ∧
    classifyQueryWkt "GEOMETRYCOLLECTION(POINT(0 0))".toList = none ∧
    getQgsGeometryType "CURVE".toList false = "Point".toList ∧
    classifyBrowserTypeName "CIRCLE".toList = "Unknown".toList := by
  obtain ⟨_, hA2, _, _, hA5, _, _, _, _, _, _, _, hB4, _, hB6, _, _, _, _, _,
    _, _, hC3, hC4, _⟩ := c1_classification
  exact ⟨hA2 "LINESTRING(5 5,6 6)".toList (by decide),
    hB4 "ST_LINESTRING".toList (by decide) (by decide) (by decide),
    hC3 "CURVEPOLYGON".toList (by decide) (by decide) (by decide),
    hA5 "GEOMETRYCOLLECTION(POINT(0 0))".toList (by decide) (by decide)
      (by decide) (by decide) (by decide) (by decide),
    hB6 "CURVE".toList false (by decide) (by decide) (by decide),
    hC4 "CIRCLE".toList (by decide) (by decide) (by decide)⟩

theorem dictGet_of_not_mem (table : List (List Char × QVariantType))
    (key : List Char) (d : QVariantType)
    (h : ∀ kv ∈ table, kv.1 ≠ key) : dictGet table key d = d := by
  induction table with
  | nil => rfl
  | cons kv rest ih =>
    obtain ⟨k, v⟩ := kv
    rw [dictGet, if_neg (h (k, v) (List.mem_cons_self _ _))]
    exact ih (fun kv hkv => h kv (List.mem_cons_of_mem _ hkv))

/-- C2 counterexample: the code maps `INT` to the 32-bit
`QVariant.Int` while the section 4.3 table maps it to a 64-bit
integer, and the code matches exactly (not by substring), so
`DECIMAL(10,2)` falls to text while the table's substring reading
gives double-precision float. -/
theorem c2_counterexample :
    hostTypeOfQVariant (mapDatabricksTypeToQgs "INT".toList) = HostType.int32 ∧
    specSection43HostType "INT".toList = HostType.int64 ∧
    HostType.int32 ≠ HostType.int64 ∧
    mapDatabricksTypeToQgs "DECIMAL(10,2)".toList = QVariantType.qstring ∧
    specSection43HostType "DECIMAL(10,2)".toList = HostType.doubleFloat := by
  decide

/-- C2 (amended): the mapping is total and deterministic, matching the
uppercased type name exactly (not as a substring): STRING maps to
text, INT to a 32-bit integer, BIGINT to a 64-bit integer,
FLOAT/DOUBLE/DECIMAL to double-precision float, BOOLEAN to boolean,
DATE to date, TIMESTAMP and TIMESTAMP_NTZ to date-time, and every
other type name — including VARCHAR, parameterized names such as
DECIMAL(10,2), and ARRAY<STRING> — maps to text. -/
theorem c2_type_mapping :
    mapDatabricksTypeToQgs "STRING".toList = QVariantType.qstring ∧
    mapDatabricksTypeToQgs "string".toList = QVariantType.qstring ∧
    mapDatabricksTypeToQgs "INT".toList = QVariantType.qint ∧
    mapDatabricksTypeToQgs "BIGINT".toList = QVariantType.qlonglong ∧
    mapDatabricksTypeToQgs "FLOAT".toList = QVariantType.qdouble ∧
    mapDatabricksTypeToQgs "DOUBLE".toList = QVariantType.qdouble ∧
    mapDatabricksTypeToQgs "DECIMAL".toList = QVariantType.qdouble ∧
    mapDatabricksTypeToQgs "BOOLEAN".toList = QVariantType.qbool ∧
    mapDatabricksTypeToQgs "DATE".toList = QVariantType.qdate ∧
    mapDatabricksTypeToQgs "TIMESTAMP".toList = QVariantType.qdatetime ∧
    mapDatabricksTypeToQgs "TIMESTAMP_NTZ".toList = QVariantType.qdatetime ∧
    mapDatabricksTypeToQgs "ARRAY<STRING>".toList = QVariantType.qstring ∧
    mapDatabricksTypeToQgs "VARCHAR".toList = QVariantType.qstring ∧
    (∀ s : List Char,
      pyUpper s ∉ List.map Prod.fst qvariantTypeMapping →
      mapDatabricksTypeToQgs s = QVariantType.qstring) := by
  refine ⟨by decide, by decide, by decide, by decide, by decide, by decide,
    by decide, by decide, by decide, by decide, by decide, by decide,
    by decide, ?_⟩
  intro s h
  refine dictGet_of_not_mem _ _ _ (fun kv hkv heq => h ?_)
  rw [← heq]
  exact List.mem_map_of_mem Prod.fst hkv

/-- C2 witness: the default clause applied at a concrete unlisted type
name. -/
theorem c2_type_mapping_witness :
    mapDatabricksTypeToQgs "MAP<STRING,INT>".toList = QVariantType.qstring :=
  c2_type_mapping.2.2.2.2.2.2.2.2.2.2.2.2.2 "MAP<STRING,INT>".toList (by decide)

/-- C10: because the POINT/LINESTRING/POLYGON substring tests run
first and every Multi* tag contains the corresponding single-part tag
as a substring, the three Multi* branches of `_detect_geometry_type`
are unreachable; no probed tag ever yields a Multi* declared type, and
a MULTIPOLYGON probe is declared single-part Polygon. -/
theorem c10_multi_branches_unreachable :
    (∀ tag : List Char,
      detectGeometryTypeTag tag ≠ QgsWkbType.multiPoint ∧
      detectGeometryTypeTag tag ≠ QgsWkbType.multiLineString ∧
      detectGeometryTypeTag tag ≠ QgsWkbType.multiPolygon) ∧
    detectGeometryTypeTag "MULTIPOLYGON".toList = QgsWkbType.polygon := by
  refine ⟨?_, by decide⟩
  intro tag
  unfold detectGeometryTypeTag
  split_ifs with h1 h2 h3 h4 h5 h6
  · exact ⟨by decide, by decide, by decide⟩
  · exact ⟨by decide, by decide, by decide⟩
  · exact ⟨by decide, by decide, by decide⟩
  · exact absurd (List.IsInfix.trans (by decide) h4) h1
  · exact absurd (List.IsInfix.trans (by decide) h5) h2
  · exact absurd (List.IsInfix.trans (by decide) h6) h3
  · exact ⟨by decide, by decide, by decide⟩

theorem isExtentSimilar_some (last e : QgsRect) :
    isExtentSimilar (some last) e =
      !((decide (|e.centerX - last.centerX| > e.width * (5/100)) ||
         decide (|e.centerY - last.centerY| > e.height * (5/100))) ||
        (decide (|e.width - last.width| / max e.width (1/10000) > 5/100) ||
         decide (|e.height - last.height| / max e.height (1/10000) > 5/100))) := rfl

/-- C5: the guard returns true whenever width and height each change
by at most 5% (of the new extent's dimension, the code's baseline) and
the center moves by at most 5% of the corresponding dimension; it
returns false whenever the center's x-shift exceeds 5% of the width;
and it returns false when no previous extent is cached. -/
theorem c5_extent_guard :
    (∀ last e : QgsRect,
      |e.width - last.width| ≤ (5/100) * e.width →
      |e.height - last.height| ≤ (5/100) * e.height →
      |e.centerX - last.centerX| ≤ (5/100) * e.width →
      |e.centerY - last.centerY| ≤ (5/100) * e.height →
      isExtentSimilar (some last) e = true) ∧
    (∀ last e : QgsRect,
      |e.centerX - last.centerX| > (5/100) * e.width →
      isExtentSimilar (some last) e = false) ∧
    (∀ e : QgsRect, isExtentSimilar none e = false) := by
  refine ⟨?_, ?_, fun e => rfl⟩
  · intro last e h1 h2 h3 h4
    have hMw : (0:ℚ) < max e.width (1/10000) :=
      lt_max_iff.mpr (Or.inr (by norm_num))
    have hMh : (0:ℚ) < max e.height (1/10000) :=
      lt_max_iff.mpr (Or.inr (by norm_num))
    have hw : |e.width - last.width| / max e.width (1/10000) ≤ 5/100 := by
      rw [div_le_iff₀ hMw]
      calc |e.width - last.width| ≤ (5/100) * e.width := h1
        _ ≤ (5/100) * max e.width (1/10000) :=
          mul_le_mul_of_nonneg_left (le_max_left _ _) (by norm_num)
    have hh : |e.height - last.height| / max e.height (1/10000) ≤ 5/100 := by
      rw [div_le_iff₀ hMh]
      calc |e.height - last.height| ≤ (5/100) * e.height := h2
        _ ≤ (5/100) * max e.height (1/10000) :=
          mul_le_mul_of_nonneg_left (le_max_left _ _) (by norm_num)
    rw [isExtentSimilar_some]
    rw [decide_eq_false (not_lt.mpr (by linarith)),
      decide_eq_false (not_lt.mpr (by linarith)),
      decide_eq_false (not_lt.mpr hw), decide_eq_false (not_lt.mpr hh)]
    rfl
  · intro last e h
    rw [isExtentSimilar_some,
      decide_eq_true (show |e.centerX - last.centerX| > e.width * (5/100) by
        rw [mul_comm]; exact h)]
    simp

/-- C5 witness: a 1.02-scaled extent with unchanged center is similar;
a center shift of 10% of the width is not. -/
theorem c5_extent_guard_witness :
    isExtentSimilar (some ⟨0, 0, 100, 100⟩) ⟨-1, -1, 101, 101⟩ = true ∧
    isExtentSimilar (some ⟨0, 0, 100, 100⟩) ⟨10, 0, 110, 100⟩ = false :=
  ⟨c5_extent_guard.1 ⟨0, 0, 100, 100⟩ ⟨-1, -1, 101, 101⟩
      (by norm_num [QgsRect.width, abs_le])
      (by norm_num [QgsRect.height, abs_le])
      (by norm_num [QgsRect.centerX, QgsRect.width, abs_le])
      (by norm_num [QgsRect.centerY, QgsRect.height, abs_le]),
   c5_extent_guard.2.1 ⟨0, 0, 100, 100⟩ ⟨10, 0, 110, 100⟩
      (by norm_num [QgsRect.centerX, QgsRect.width, lt_abs])⟩

/-- C3 counterexample: `_strip_srid_from_wkt` is not idempotent.  On
`"SRID=4326;SRID=4326;POINT(1 2)"` one application removes only the
first `SRID=...;` prefix, leaving a string that still starts with
`SRID=`, so a second application changes it again. -/
theorem c3_counterexample :
    stripSridFromWkt (stripSridFromWkt "SRID=4326;SRID=4326;POINT(1 2)".toList) ≠
      stripSridFromWkt "SRID=4326;SRID=4326;POINT(1 2)".toList := by decide

/-- C3 (amended): SRID-prefix stripping is total;
`strip_srid("SRID=4326;POINT(1 2)") = "POINT(1 2)"`; for every `s`
whose stripped form does not begin (case-insensitively) with `SRID=`,
`strip_srid(s) = s.strip()`; and `strip_srid` is idempotent on every
`s` whose first-application result does not itself begin with an
`SRID=` prefix (a doubled prefix is the only way idempotence fails). -/
theorem c3_strip_srid :
    (∀ s : List Char, ¬ sridPrefix <+: pyUpper (stripSridFromWkt s) →
      stripSridFromWkt (stripSridFromWkt s) = stripSridFromWkt s) ∧
    stripSridFromWkt "SRID=4326;POINT(1 2)".toList = "POINT(1 2)".toList ∧
    (∀ s : List Char, ¬ sridPrefix <+: pyUpper (pyStrip s) →
      stripSridFromWkt s = pyStrip s) := by
  refine ⟨?_, by decide, fun s h => stripSrid_unmarked s h⟩
  intro s h
  have hs : pyStrip (stripSridFromWkt s) = stripSridFromWkt s :=
    pyStrip_stripSridFromWkt s
  have h2 : ¬ sridPrefix <+: pyUpper (pyStrip (stripSridFromWkt s)) := by
    rw [hs]
    exact h
  rw [stripSrid_unmarked _ h2, hs]

/-- C3 witness: the amended idempotence and no-prefix clauses applied
at concrete inputs. -/
theorem c3_strip_srid_witness :
    stripSridFromWkt (stripSridFromWkt "SRID=4326;POINT(1 2)".toList) =
      stripSridFromWkt "SRID=4326;POINT(1 2)".toList ∧
    stripSridFromWkt "  POINT(3 4)  ".toList = pyStrip "  POINT(3 4)  ".toList :=
  ⟨c3_strip_srid.1 "SRID=4326;POINT(1 2)".toList (by decide),
   c3_strip_srid.2.2 "  POINT(3 4)  ".toList (by decide)⟩

/-- C7 counterexample: escaping does not strip *every* backtick from
the identifier — `a`b` keeps its interior backtick, unlike the
remove-all-backticks reading of the rule. -/
theorem c7_counterexample :
    escapeIdentifier "a`b".toList = "`a`b`".toList ∧
    escapeIdentifier "a`b".toList ≠ tick :: (removeAllTicks "a`b".toList ++ [tick]) := by
  decide

/-- C7 (amended): identifier escaping strips backticks from both ends
(interior backticks are kept) of a non-empty identifier and wraps the
result in backticks; it is idempotent on every identifier; an already
backtick-wrapped identifier is unchanged and a plain identifier is
wrapped. -/
theorem c7_escape_identifier :
    (∀ x : List Char, escapeIdentifier (escapeIdentifier x) = escapeIdentifier x) ∧
    (∀ x : List Char, x ≠ [] →
      escapeIdentifier x = tick :: (stripTicks x ++ [tick])) ∧
    escapeIdentifier "`weird.name`".toList = "`weird.name`".toList ∧
    escapeIdentifier "weird-name".toList = "`weird-name`".toList := by
  refine ⟨escapeIdentifier_idem, fun x hx => ?_, by decide, by decide⟩
  rw [escapeIdentifier, if_neg hx]

/-- C7 witness: the both-ends-stripping clause applied at a concrete
non-empty identifier. -/
theorem c7_escape_identifier_witness :
    escapeIdentifier "weird-name".toList =
      tick :: (stripTicks "weird-name".toList ++ [tick]) :=
  c7_escape_identifier.2.1 "weird-name".toList (by decide)

/-- C6: with `max_features = 0` both query builders emit exactly the
base query (no LIMIT suffix is appended, and the concrete generated
text contains no `LIMIT` substring); with a positive cap `n` both emit
the base query followed by a trailing ` LIMIT n`, e.g. ` LIMIT 250`
for `n = 250`. -/
theorem c6_feature_cap :
    (∀ af : List (List Char), ∀ gc tr : List Char,
      layerLoadQuery af gc tr 0 = layerLoadQueryBase af gc tr) ∧
    (∀ af : List (List Char), ∀ gc tr : List Char, ∀ n : Int, 0 < n →
      layerLoadQuery af gc tr n =
        layerLoadQueryBase af gc tr ++ " LIMIT ".toList ++ pyIntRepr n) ∧
    (∀ f : List (List Char), ∀ fn g x1 y1 x2 y2 : List Char, ∀ srid : Int,
      ∀ cw : List Char,
      buildViewportQuery f fn g x1 y1 x2 y2 srid cw 0 =
        buildViewportQueryBase f fn g x1 y1 x2 y2 srid cw) ∧
    (∀ f : List (List Char), ∀ fn g x1 y1 x2 y2 : List Char, ∀ srid : Int,
      ∀ cw : List Char, ∀ n : Int, 0 < n →
      buildViewportQuery f fn g x1 y1 x2 y2 srid cw n =
        buildViewportQueryBase f fn g x1 y1 x2 y2 srid cw ++
          " LIMIT ".toList ++ pyIntRepr n) ∧
    pyIntRepr 250 = "250".toList ∧
    layerLoadQuery [] "geometry".toList "cat.sch.tbl".toList 250 =
      layerLoadQueryBase [] "geometry".toList "cat.sch.tbl".toList ++
        " LIMIT 250".toList ∧
    ¬ "LIMIT".toList <:+: layerLoadQuery [] "geometry".toList "cat.sch.tbl".toList 0 ∧
    ¬ "LIMIT".toList <:+:
        buildViewportQuery ["name".toList] "cat.sch.tbl".toList "geom".toList
          "0".toList "0".toList "1".toList "1".toList 4326 [] 0 := by
  refine ⟨?_, ?_, ?_, ?_, by decide, by decide, by decide, by decide⟩
  · intro af gc tr
    rw [layerLoadQuery, if_neg (by decide)]
  · intro af gc tr n h
    rw [layerLoadQuery, if_pos h]
  · intro f fn g x1 y1 x2 y2 srid cw
    rw [buildViewportQuery, if_neg (by decide)]
  · intro f fn g x1 y1 x2 y2 srid cw n h
    rw [buildViewportQuery, if_pos h]

/-- C6 witness: the positive-cap clauses applied at a concrete cap of
250. -/
theorem c6_feature_cap_witness :
    layerLoadQuery ["id".toList] "geometry".toList "c.s.t".toList 250 =
      layerLoadQueryBase ["id".toList] "geometry".toList "c.s.t".toList ++
        " LIMIT ".toList ++ pyIntRepr 250 ∧
    buildViewportQuery [] "c.s.t".toList "geom".toList "0".toList "0".toList
        "1".toList "1".toList 4326 [] 250 =
      buildViewportQueryBase [] "c.s.t".toList "geom".toList "0".toList
          "0".toList "1".toList "1".toList 4326 [] ++
        " LIMIT ".toList ++ pyIntRepr 250 :=
  ⟨c6_feature_cap.2.1 ["id".toList] "geometry".toList "c.s.t".toList 250
      (by decide),
   c6_feature_cap.2.2.2.1 [] "c.s.t".toList "geom".toList "0".toList
      "0".toList "1".toList "1".toList 4326 [] 250 (by decide)⟩

/-- C8: the provider's pull-based retrieval yields one feature per
fetched row — a row is never dropped — carrying the row's attribute
cells; in particular a row whose geometry text fails to parse is
yielded with all its attribute values and a null geometry. -/
theorem c8_unparsable_row_still_yielded {G : Type}
    (parseWkt : List Char → Option G) (numFields : Nat)
    (rows : List (List (Option (List Char)))) :
    (getFeaturesImpl parseWkt numFields rows).length = rows.length ∧
    (∀ i, ∀ h : i < rows.length,
      (getFeaturesImpl parseWkt numFields rows).get
          ⟨i, by simpa [getFeaturesImpl] using h⟩ =
        ⟨(rows.get ⟨i, h⟩).take numFields,
         parseRowGeom parseWkt numFields (rows.get ⟨i, h⟩)⟩) ∧
    (∀ i, ∀ h : i < rows.length, ∀ s : List Char,
      rowGeomCell numFields (rows.get ⟨i, h⟩) = some s → s ≠ [] →
      parseWkt s = none →
      (getFeaturesImpl parseWkt numFields rows).get
          ⟨i, by simpa [getFeaturesImpl] using h⟩ =
        ⟨(rows.get ⟨i, h⟩).take numFields, none⟩) := by
  refine ⟨by simp [getFeaturesImpl], ?_, ?_⟩
  · intro i h
    simp [getFeaturesImpl]
  · intro i h s hs hne hparse
    simp only [getFeaturesImpl, List.get_eq_getElem, List.getElem_map]
    rw [parseRowGeom]
    simp only [List.get_eq_getElem] at hs
    rw [hs]
    simp [hne, hparse]

/-- C8 witness: a single row whose geometry cell never parses is still
yielded, with its attribute cell and a null geometry. -/
theorem c8_unparsable_row_still_yielded_witness :
    (getFeaturesImpl (fun _ => (none : Option Unit)) 1
          [[some "id1".toList, some "NOT WKT".toList]]).get
        ⟨0, by simp [getFeaturesImpl]⟩ =
      ⟨[some "id1".toList], none⟩ :=
  (c8_unparsable_row_still_yielded (fun _ => (none : Option Unit)) 1
      [[some "id1".toList, some "NOT WKT".toList]]).2.2 0 (by decide)
    "NOT WKT".toList (by decide) (by decide) rfl

/-- C9: on the path where `_find_qgis_pip` produced an executable,
every transcribed statement up to and including
`self.install_process.start(executable, args)` resolves its names, and
the immediately following final logging statement is the first to
raise `NameError` — it reads `python_exe`, a name bound nowhere in the
function or module — so the success path of `_start_installation`
never completes normally. -/
theorem c9_start_installation_name_error :
    firstNameError connectorModuleGlobals ["self"] startInstallationFoundPath =
      some (startInstallationFoundPath.length - 1) ∧
    startInstallationFoundPath.getLast?.map PyStmt.tag =
      some "log Starting pip install with python_exe" ∧
    startInstallationFoundPath.getLast?.map PyStmt.reads =
      some ["QgsMessageLog", "python_exe", "Qgis"] ∧
    (startInstallationFoundPath.get?
        (startInstallationFoundPath.length - 2)).map PyStmt.tag =
      some "self.install_process.start(executable, args)" := by decide

/-- C4 counterexample: in the query-to-layer path a batch of one row
with an unparsable geometry — zero valid geometries — still reports
success and produces a layer with one (geometry-less) feature, where
the claim demands failure and no layer. -/
theorem c4_counterexample :
    (queryLayerCreationRun [false]).success = true ∧
    (queryLayerCreationRun [false]).featureCount = some 1 := by decide

/-- C4 (amended): in the table-loading worker, rows without a valid,
layer-compatible geometry are dropped: with no survivors the
operation reports failure and no layer, and with at least one survivor
it reports success with a layer holding exactly the surviving rows
(its message states the loaded count, not the skipped count).  The
query-to-layer worker instead keeps every row as a feature, so it
always reports success with all M rows committed, and its
skipped-count summary fires only if the committed count falls short of
the row count. -/
theorem layerLoadingRun_eq (info : TableLoadInfo) (layerWkb : Nat)
    (rows : List (Option Nat)) :
    layerLoadingRun info layerWkb rows =
      if (rows.filter (rowSurvives info layerWkb)).length = 0 then
        ⟨false, "No features were successfully added to the layer".toList, none⟩
      else if info.mixedGeometries then
        ⟨true,
         "Loaded ".toList ++
           Nat.toDigits 10 (rows.filter (rowSurvives info layerWkb)).length ++
           " Point features. Creating additional layers for LineStrings and Polygons...".toList,
         some (rows.filter (rowSurvives info layerWkb))⟩
      else
        ⟨true,
         "Loaded ".toList ++
           Nat.toDigits 10 (rows.filter (rowSurvives info layerWkb)).length ++
           " features with geometries".toList,
         some (rows.filter (rowSurvives info layerWkb))⟩ := rfl

theorem queryLayerCreationRun_eq (rows : List Bool) :
    queryLayerCreationRun rows =
      if rows.length < rows.length then
        ⟨true,
         "Created layer with ".toList ++ Nat.toDigits 10 rows.length ++
           " features out of ".toList ++ Nat.toDigits 10 rows.length ++
           " rows. ".toList ++ Nat.toDigits 10 (rows.length - rows.length) ++
           " features were skipped due to geometry parsing issues. Check the log for details.".toList,
         some rows.length⟩
      else
        ⟨true,
         "Created layer with ".toList ++ Nat.toDigits 10 rows.length ++
           " features".toList,
         some rows.length⟩ := rfl

theorem c4_partial_load :
    (∀ info : TableLoadInfo, ∀ layerWkb : Nat, ∀ rows : List (Option Nat),
      ((rows.filter (rowSurvives info layerWkb)).length = 0 →
        (layerLoadingRun info layerWkb rows).success = false ∧
        (layerLoadingRun info layerWkb rows).layerFeatures = none) ∧
      (0 < (rows.filter (rowSurvives info layerWkb)).length →
        (layerLoadingRun info layerWkb rows).success = true ∧
        (layerLoadingRun info layerWkb rows).layerFeatures =
          some (rows.filter (rowSurvives info layerWkb)))) ∧
    (∀ rows : List Bool,
      (queryLayerCreationRun rows).success = true ∧
      (queryLayerCreationRun rows).featureCount = some rows.length) := by
  constructor
  · intro info layerWkb rows
    constructor
    · intro h
      rw [layerLoadingRun_eq, if_pos h]
      exact ⟨rfl, rfl⟩
    · intro h
      rw [layerLoadingRun_eq, if_neg (by omega)]
      by_cases hm : info.mixedGeometries = true
      · rw [if_pos hm]
        exact ⟨rfl, rfl⟩
      · rw [if_neg hm]
        exact ⟨rfl, rfl⟩
  · intro rows
    rw [queryLayerCreationRun_eq, if_neg (lt_irrefl rows.length)]
    exact ⟨rfl, rfl⟩

/-- C4 witness: three rows of which one survives give success with
exactly the surviving feature list; a batch whose only row has no
valid geometry fails with no layer. -/
theorem c4_partial_load_witness :
    (layerLoadingRun ⟨none, false⟩ 1 [some 1, none, some 2]).success = true ∧
    (layerLoadingRun ⟨none, false⟩ 1 [some 1, none, some 2]).layerFeatures =
      some ([some 1, none, some 2].filter (rowSurvives ⟨none, false⟩ 1)) ∧
    (layerLoadingRun ⟨none, false⟩ 1 [none]).success = false ∧
    (layerLoadingRun ⟨none, false⟩ 1 [none]).layerFeatures = none :=
  ⟨((c4_partial_load.1 ⟨none, false⟩ 1 [some 1, none, some 2]).2 (by decide)).1,
   ((c4_partial_load.1 ⟨none, false⟩ 1 [some 1, none, some 2]).2 (by decide)).2,
   ((c4_partial_load.1 ⟨none, false⟩ 1 [none]).1 (by decide)).1,
   ((c4_partial_load.1 ⟨none, false⟩ 1 [none]).1 (by decide)).2⟩

end DbxConn

